import Mathlib

/-!
Shallow embedding of the numberbot resource-allocation and
subscription-lifecycle engine (src/main.py).

The MongoDB collections become lists of records; `datetime` values become
integers; the Twilio client becomes explicit oracle parameters
(`purchase`, `release`, `latest`) so each operation is a pure function of
the database state and the upstream behaviour.  Mongo semantics:
`find_one` returns the first matching document, `insert_one` appends,
`update_one` with `upsert=True` replaces the first matching document or
appends, `delete_one` removes the first matching document.
-/

namespace Numberbot

/-- Python `User.to_dict` fields of src/main.py (subscriber record). -/
structure User where
  telegram_id : Nat
  username : Option String
  is_active : Bool
  subscription_type : Option String
  subscription_end : Option Int
  current_sid_index : Nat
deriving DecidableEq, Repr

/-- A document of the `credentials` collection (`save_credential`). -/
structure Credential where
  telegram_id : Nat
  sid : String
  auth_token : String
  is_valid : Bool
  added_on : Int
deriving DecidableEq, Repr

/-- A document of the `numbers` collection (inserted by `buy_number`). -/
structure NumberDoc where
  number : String
  twilio_sid : String
  user_id : Nat
  bought_on : Int
deriving DecidableEq, Repr

/-- The three MongoDB collections used by the core. -/
structure DB where
  users : List User
  credentials : List Credential
  numbers : List NumberDoc
deriving DecidableEq, Repr

/-- Constant `BOSS_ID` from src/main.py. -/
def BOSS_ID : Nat := 6917210823

/-- Constant `ADMIN_IDS` from src/main.py. -/
def ADMIN_IDS : List Nat := [6917210457, 6917210899, 4779333778]

/-- Concatenation `ALL_ADMIN_IDS = [BOSS_ID] + ADMIN_IDS`. -/
def ALL_ADMIN_IDS : List Nat := BOSS_ID :: ADMIN_IDS

/-- Function `is_admin`: membership in `ALL_ADMIN_IDS`. -/
def is_admin (user_id : Nat) : Bool := ALL_ADMIN_IDS.contains user_id

/-- Function `get_user`: `users_collection.find_one({"telegram_id": telegram_id})`. -/
def find_user (db : DB) (telegram_id : Nat) : Option User :=
  db.users.find? (fun u => u.telegram_id == telegram_id)

/-- Mongo `update_one({"telegram_id": ...}, {"$set": full record}, upsert=True)`:
replace the first document with the same `telegram_id`, or append. -/
def upsert_user : List User → User → List User
  | [], v => [v]
  | u :: rest, v =>
      if u.telegram_id == v.telegram_id then v :: rest
      else u :: upsert_user rest v

/-- Function `save_user`. -/
def save_user (db : DB) (v : User) : DB :=
  { db with users := upsert_user db.users v }

/-- Function `get_valid_credentials`: `credentials_collection.find({"is_valid": True})`. -/
def get_valid_credentials (db : DB) : List Credential :=
  db.credentials.filter (fun c => c.is_valid)

/-- Placeholder credential for total list indexing (`getD`); every theorem
about selection establishes the index is in range, so it is never reached. -/
def defaultCredential : Credential := ⟨0, "", "", false, 0⟩

/-- The index `get_next_sid` actually reads after its range check:
`current_sid_index`, reset to `0` when `>= len(credentials)`. -/
def sid_index (cursor K : Nat) : Nat :=
  if K ≤ cursor then 0 else cursor

/-- Function `get_next_sid`: returns the selected `(sid, auth_token)` pair (or `none`
when no valid credential exists) together with the database, which is
written when the out-of-range cursor is reset to `0`. -/
def get_next_sid (db : DB) (user : User) : Option (String × String) × DB :=
  let credentials := get_valid_credentials db
  if credentials.isEmpty then (none, db)
  else
    let db' :=
      if credentials.length ≤ user.current_sid_index then
        save_user db { user with current_sid_index := 0 }
      else db
    let selected_cred :=
      credentials.getD (sid_index user.current_sid_index credentials.length)
        defaultCredential
    (some (selected_cred.sid, selected_cred.auth_token), db')

/-- Result of `buy_number`: `(True, purchased_number.sid)` or `(False, str(e))`. -/
inductive BuyResult where
  | ok (upstream_sid : String)
  | err (msg : String)
deriving DecidableEq, Repr

/-- Python error string of the uncaught-then-caught `ZeroDivisionError`
raised by `% len(await get_valid_credentials())` when the set is empty. -/
def zeroDivMsg : String := "integer division or modulo by zero"

/-- Mongo `numbers_collection.insert_one`: append the document. -/
def insert_number (db : DB) (d : NumberDoc) : DB :=
  ⟨db.users, db.credentials, db.numbers ++ [d]⟩

/-- Function `buy_number`: the upstream purchase is the oracle
`purchase : String → Except String String` (error message, or the upstream
allocation sid).  On upstream success the number document is inserted, the
user is re-fetched and the rotation cursor advanced
`(current_sid_index + 1) % len(valid credentials)`; a modulo by zero is
caught by the generic handler and reported as a failure. -/
def buy_number (db : DB) (purchase : String → Except String String) (now : Int)
    (phone_number : String) (user_id : Nat) : BuyResult × DB :=
  match purchase phone_number with
  | .error e => (.err e, db)
  | .ok psid =>
      let db1 : DB := insert_number db ⟨phone_number, psid, user_id, now⟩
      match find_user db1 user_id with
      | none => (.ok psid, db1)
      | some user =>
          let K := (get_valid_credentials db1).length
          if K == 0 then (.err zeroDivMsg, db1)
          else
            (.ok psid,
             save_user db1 { user with current_sid_index := (user.current_sid_index + 1) % K })

/-- Function `delete_number`: local lookup by number, upstream release with the
*stored* `twilio_sid` (oracle `release : String → Except String Unit`),
local `delete_one` only after upstream success. -/
def delete_first_number : List NumberDoc → String → List NumberDoc
  | [], _ => []
  | d :: rest, n => if d.number == n then rest else d :: delete_first_number rest n

/-- Outcome of `delete_number`: `(success, error_message)` plus the database. -/
def delete_number (db : DB) (release : String → Except String Unit)
    (number : String) : (Bool × Option String) × DB :=
  match db.numbers.find? (fun d => d.number == number) with
  | none => ((false, some "Number not found in database"), db)
  | some number_doc =>
      match release number_doc.twilio_sid with
      | .error e => ((false, some e), db)
      | .ok _ =>
          ((true, none), { db with numbers := delete_first_number db.numbers number })

/-- The filtering loop of `get_canada_numbers`: keep upstream numbers not in
`used` and not in `exclude`, and `break` as soon as the accumulated result
reaches `limit` (the length test happens *after* the append). -/
def canada_filter_loop (used exclude : List String) (limit : Nat) :
    List String → List String → List String
  | [], result => result
  | n :: rest, result =>
      if n ∈ used ∨ n ∈ exclude then canada_filter_loop used exclude limit rest result
      else
        let result' := result ++ [n]
        if limit ≤ result'.length then result'
        else canada_filter_loop used exclude limit rest result'

/-- Function `get_canada_numbers` (success path): `available` is the upstream-returned
sequence, `used` is every number of the `numbers` collection. -/
def get_canada_numbers (db : DB) (available : List String) (limit : Nat)
    (exclude_numbers : List String) : List String :=
  canada_filter_loop (db.numbers.map (fun d => d.number)) exclude_numbers limit
    available []

/-- Function `check_sms`: latest message body, or the literal fallback text. -/
def check_sms (messages : List String) : String :=
  match messages with
  | [] => "No messages found"
  | m :: _ => m

/-- Python truthiness of the `if not sid or not auth_token` guard in the
callbacks: the pair is rejected when either string is empty. -/
def cred_pair_falsy (p : String × String) : Bool :=
  p.1.isEmpty || p.2.isEmpty

/-- Outcome of `buy_number_callback`. -/
inductive BuyOutcome where
  | userNotFound
  | noCredentials
  | purchased (upstream_sid : String)
  | failed (msg : String)
deriving DecidableEq, Repr

/-- Handler `buy_number_callback`: fetch the user, pick a credential via
`get_next_sid`, then run `buy_number`; there is no local check of the
`numbers` collection before the upstream purchase. -/
def buy_number_callback (db : DB) (purchase : String → Except String String)
    (now : Int) (user_id : Nat) (number : String) : BuyOutcome × DB :=
  match find_user db user_id with
  | none => (.userNotFound, db)
  | some user =>
      match get_next_sid db user with
      | (none, db') => (.noCredentials, db')
      | (some p, db') =>
          if cred_pair_falsy p then (.noCredentials, db')
          else
            match buy_number db' purchase now number user_id with
            | (.ok psid, db'') => (.purchased psid, db'')
            | (.err e, db'') => (.failed e, db'')

/-- Outcome of `check_otp_callback`. -/
inductive OtpOutcome where
  | userNotFound
  | noCredentials
  | notPurchased
  | smsShown (body : String)
deriving DecidableEq, Repr

/-- Handler `check_otp_callback`: fetch the user and a credential, require the number
to exist in the `numbers` collection, then read the latest SMS.  The
document's `user_id` field is never compared with the requester. -/
def check_otp_callback (db : DB) (latest : String → List String)
    (user_id : Nat) (number : String) : OtpOutcome × DB :=
  match find_user db user_id with
  | none => (.userNotFound, db)
  | some user =>
      match get_next_sid db user with
      | (none, db') => (.noCredentials, db')
      | (some p, db') =>
          if cred_pair_falsy p then (.noCredentials, db')
          else
            match db'.numbers.find? (fun d => d.number == number) with
            | none => (.notPurchased, db')
            | some _ => (.smsShown (check_sms (latest number)), db')

/-- Outcome of `delete_number_callback`. -/
inductive DeleteOutcome where
  | notExists
  | noPermission
  | userNotFound
  | noCredentials
  | deleted
  | failed
deriving DecidableEq, Repr

/-- Handler `delete_number_callback`: lookup, ownership/admin check, credential
selection, then `delete_number`. -/
def delete_number_callback (db : DB) (release : String → Except String Unit)
    (user_id : Nat) (number : String) : DeleteOutcome × DB :=
  match db.numbers.find? (fun d => d.number == number) with
  | none => (.notExists, db)
  | some number_doc =>
      if number_doc.user_id != user_id && !(is_admin user_id) then (.noPermission, db)
      else
        match find_user db user_id with
        | none => (.userNotFound, db)
        | some user =>
            match get_next_sid db user with
            | (none, db') => (.noCredentials, db')
            | (some p, db') =>
                if cred_pair_falsy p then (.noCredentials, db')
                else
                  match delete_number db' release number with
                  | ((true, _), db'') => (.deleted, db'')
                  | ((false, _), db'') => (.failed, db'')

/-- The Mongo query of `check_subscriptions`:
`{"is_active": True, "subscription_end": {"$lt": now}}` (the `$lt` never
matches a missing/null `subscription_end`). -/
def is_expired_query (now : Int) (u : User) : Bool :=
  u.is_active &&
    (match u.subscription_end with
     | some e => decide (e < now)
     | none => false)

/-- One pass of the `check_subscriptions` loop body: deactivate and persist
every user matched by the expiry query, and attempt one notification per
matched user (`deliver` reports the transport's success; its result is
logged, never propagated). -/
def check_subscriptions_pass (now : Int) (deliver : Nat → Bool) (db : DB) :
    DB × List (Nat × Bool) :=
  let expired_users := db.users.filter (is_expired_query now)
  (expired_users.foldl (fun acc u => save_user acc { u with is_active := false }) db,
   expired_users.map (fun u => (u.telegram_id, deliver u.telegram_id)))

/-- The sweep interrupted after its first `n` updates: the per-user
`save_user` writes are durable, so only the processed prefix is persisted. -/
def check_subscriptions_interrupted (now : Int) (db : DB) (n : Nat) : DB :=
  ((db.users.filter (is_expired_query now)).take n).foldl
    (fun acc u => save_user acc { u with is_active := false }) db

/-- Table `SUBSCRIPTION_PLANS`: key, display name, price, duration in hours. -/
def SUBSCRIPTION_PLANS : List (String × String × String × Nat) :=
  [("6_hours", "6 hours", "$0.50", 6),
   ("1_day", "1 day", "$1.2", 24),
   ("7_days", "7 days", "$5", 168),
   ("15_days", "15 days", "$10", 360)]

/-- The aiogram FSM states of `BotStates`. -/
inductive BotState where
  | start
  | awaiting_payment
  | awaiting_approval
  | main_menu
  | load_credential
  | browse_numbers
deriving DecidableEq, Repr

/-- Result of `process_payment_screenshot`: the FSM state set at the end of
the handler, the admins the approval request was forwarded to, and the
database (the handler never touches any collection). -/
structure PaymentOutcome where
  new_state : BotState
  forwards : List Nat
  db : DB
deriving DecidableEq, Repr

/-- Handler `process_payment_screenshot` (fires in state `awaiting_payment`):
without a stored `selected_plan` it replies with an error and sets the
state back to `start`; with an unknown key the `SUBSCRIPTION_PLANS[...]`
lookup raises and the handler dies before any forward or state change;
otherwise the screenshot is forwarded to every admin and the state becomes
`awaiting_approval`. -/
def process_payment_screenshot (db : DB) (selected_plan : Option String) :
    PaymentOutcome :=
  match selected_plan with
  | none => ⟨.start, [], db⟩
  | some plan_key =>
      match SUBSCRIPTION_PLANS.find? (fun p => p.1 == plan_key) with
      | none => ⟨.awaiting_payment, [], db⟩
      | some _ => ⟨.awaiting_approval, ALL_ADMIN_IDS, db⟩

/-- The credential index `buy_number_callback` will use in the current
state: `get_next_sid`'s range-checked cursor of the stored user. -/
def round_selection (db : DB) (user_id : Nat) : Nat :=
  match find_user db user_id with
  | some u => sid_index u.current_sid_index (get_valid_credentials db).length
  | none => 0

/-- A run of consecutive purchases through `buy_number_callback`, recording
the credential index selected for each round. -/
def purchase_run (purchase : String → Except String String) (now : Int)
    (user_id : Nat) : DB → List String → DB × List Nat
  | db, [] => (db, [])
  | db, n :: rest =>
      let i := round_selection db user_id
      let db' := (buy_number_callback db purchase now user_id n).2
      let r := purchase_run purchase now user_id db' rest
      (r.1, i :: r.2)

/-- Modelled from the spec's words (Inventory Broker, §4.3 and §8 scenario),
for comparison with `get_canada_numbers`: the upstream sequence filtered to
drop allocated or excluded numbers, in order, truncated to the desired
count. -/
def spec_candidates (used exclude available : List String) (limit : Nat) :
    List String :=
  (available.filter (fun n => decide (n ∉ used) && decide (n ∉ exclude))).take limit

/-- Modelled from the spec's words (§3 Subscriber invariant): the activation
flag must be true exactly when an expiry timestamp exists and lies strictly
in the future. -/
def activation_invariant (now : Int) (u : User) : Prop :=
  u.is_active =
    (match u.subscription_end with
     | some e => decide (now < e)
     | none => false)

instance (now : Int) (u : User) : Decidable (activation_invariant now u) := by
  unfold activation_invariant
  infer_instance

/-! ### Basic store lemmas -/

theorem upsert_find_self (l : List User) (v : User) :
    (upsert_user l v).find? (fun u => u.telegram_id == v.telegram_id) = some v := by
  induction l with
  | nil => simp [upsert_user]
  | cons u rest ih =>
      by_cases h : u.telegram_id = v.telegram_id
      · simp [upsert_user, h]
      · simp only [upsert_user, beq_iff_eq, h, if_false]
        rw [List.find?_cons_of_neg _ (by simpa using h)]
        exact ih

theorem upsert_find_ne (l : List User) (v : User) (t : Nat) (hv : v.telegram_id ≠ t) :
    (upsert_user l v).find? (fun u => u.telegram_id == t) =
      l.find? (fun u => u.telegram_id == t) := by
  induction l with
  | nil => simp [upsert_user, hv]
  | cons u rest ih =>
      by_cases h : u.telegram_id = v.telegram_id
      · simp only [upsert_user, beq_iff_eq, h, if_true]
        rw [List.find?_cons_of_neg _ (by simpa using hv),
          List.find?_cons_of_neg _ (by simpa [h] using hv)]
      · simp only [upsert_user, beq_iff_eq, h, if_false]
        by_cases ht : u.telegram_id = t
        · rw [List.find?_cons_of_pos _ (by simpa using ht),
            List.find?_cons_of_pos _ (by simpa using ht)]
        · rw [List.find?_cons_of_neg _ (by simpa using ht),
            List.find?_cons_of_neg _ (by simpa using ht)]
          exact ih

theorem find_user_save_self (db : DB) (v : User) :
    find_user (save_user db v) v.telegram_id = some v :=
  upsert_find_self db.users v

theorem find_user_save_ne (db : DB) (v : User) (t : Nat) (hv : v.telegram_id ≠ t) :
    find_user (save_user db v) t = find_user db t :=
  upsert_find_ne db.users v t hv

theorem find_user_some_tid (db : DB) (t : Nat) (u : User)
    (h : find_user db t = some u) : u.telegram_id = t := by
  have := List.find?_some h
  simpa using this

theorem credentials_save_user (db : DB) (v : User) :
    (save_user db v).credentials = db.credentials := rfl

theorem numbers_save_user (db : DB) (v : User) :
    (save_user db v).numbers = db.numbers := rfl

theorem valid_credentials_save_user (db : DB) (v : User) :
    get_valid_credentials (save_user db v) = get_valid_credentials db := rfl

theorem find_user_insert_number (db : DB) (d : NumberDoc) (t : Nat) :
    find_user (insert_number db d) t = find_user db t := rfl

theorem valid_credentials_insert_number (db : DB) (d : NumberDoc) :
    get_valid_credentials (insert_number db d) = get_valid_credentials db := rfl

theorem numbers_insert_number (db : DB) (d : NumberDoc) :
    (insert_number db d).numbers = db.numbers ++ [d] := rfl

/-! ### Sweep lemmas -/

theorem sweep_fold_db (E : List User) (db : DB) :
    E.foldl (fun acc u => save_user acc { u with is_active := false }) db =
      { db with
        users := E.foldl (fun l u => upsert_user l { u with is_active := false }) db.users } := by
  induction E generalizing db with
  | nil => rfl
  | cons e E ih => rw [List.foldl_cons, List.foldl_cons, ih]; rfl

theorem sweep_fold_find_notin (E : List User) (db : DB) (t : Nat)
    (h : ∀ v ∈ E, v.telegram_id ≠ t) :
    find_user (E.foldl (fun acc u => save_user acc { u with is_active := false }) db) t =
      find_user db t := by
  induction E generalizing db with
  | nil => rfl
  | cons e E ih =>
      rw [List.foldl_cons, ih _ (fun v hv => h v (List.mem_cons_of_mem _ hv))]
      exact find_user_save_ne db _ t (h e (List.mem_cons_self _ _))

theorem sweep_fold_find_mem (E : List User) (db : DB) (u : User)
    (hnd : (E.map (fun v => v.telegram_id)).Nodup) (hu : u ∈ E) :
    find_user (E.foldl (fun acc u => save_user acc { u with is_active := false }) db)
      u.telegram_id = some { u with is_active := false } := by
  induction E generalizing db with
  | nil => cases hu
  | cons e E ih =>
      rw [List.map_cons] at hnd
      obtain ⟨hhead, htail⟩ := List.nodup_cons.mp hnd
      rw [List.foldl_cons]
      rcases List.mem_cons.mp hu with rfl | hu'
      · rw [sweep_fold_find_notin _ _ _ (fun v hv heq => hhead (by
          rw [← heq]; exact List.mem_map_of_mem _ hv))]
        exact find_user_save_self db _
      · exact ih _ htail hu'

theorem upsert_fold_skip_head (E : List User) (u : User) (t : List User)
    (h : ∀ v ∈ E, v.telegram_id ≠ u.telegram_id) :
    E.foldl (fun l w => upsert_user l { w with is_active := false }) (u :: t) =
      u :: E.foldl (fun l w => upsert_user l { w with is_active := false }) t := by
  induction E generalizing t with
  | nil => rfl
  | cons e E ih =>
      rw [List.foldl_cons, List.foldl_cons]
      have he : u.telegram_id ≠ e.telegram_id :=
        Ne.symm (h e (List.mem_cons_self _ _))
      have h1 : upsert_user (u :: t) { e with is_active := false } =
          u :: upsert_user t { e with is_active := false } := by
        simp only [upsert_user, beq_iff_eq]
        exact if_neg he
      rw [h1, ih _ (fun v hv => h v (List.mem_cons_of_mem _ hv))]

theorem sweep_users_eq_map (now : Int) (users : List User)
    (hnd : (users.map (fun v => v.telegram_id)).Nodup) :
    (users.filter (is_expired_query now)).foldl
        (fun l w => upsert_user l { w with is_active := false }) users =
      users.map
        (fun u => if is_expired_query now u then { u with is_active := false } else u) := by
  induction users with
  | nil => rfl
  | cons u rest ih =>
      have hhead : u.telegram_id ∉ rest.map (fun v => v.telegram_id) :=
        (List.nodup_cons.mp hnd).1
      have hrest : (rest.map (fun v => v.telegram_id)).Nodup :=
        (List.nodup_cons.mp hnd).2
      have hne : ∀ v ∈ rest.filter (is_expired_query now),
          v.telegram_id ≠ u.telegram_id := by
        intro v hv heq
        exact hhead (heq ▸ List.mem_map_of_mem _ (List.mem_of_mem_filter hv))
      cases hP : is_expired_query now u with
      | true =>
          rw [List.filter_cons_of_pos hP, List.foldl_cons]
          have h1 : upsert_user (u :: rest) { u with is_active := false } =
              { u with is_active := false } :: rest := by
            simp [upsert_user]
          rw [h1, upsert_fold_skip_head (rest.filter (is_expired_query now))
            { u with is_active := false } rest hne, ih hrest, List.map_cons, hP]
          simp
      | false =>
          rw [List.filter_cons_of_neg (by simp [hP]), upsert_fold_skip_head _ _ _ hne,
            ih hrest, List.map_cons, hP]
          simp

/-! ### Credential selection and purchase-round lemmas -/

theorem sid_index_lt (cursor K : Nat) (hK : 0 < K) : sid_index cursor K < K := by
  unfold sid_index
  split <;> omega

theorem sid_index_of_lt (cursor K : Nat) (h : cursor < K) : sid_index cursor K = cursor := by
  unfold sid_index
  rw [if_neg (by omega)]

theorem get_next_sid_eq (db : DB) (u : User)
    (hK : (get_valid_credentials db).isEmpty = false) :
    get_next_sid db u =
      (some
        (((get_valid_credentials db).getD
            (sid_index u.current_sid_index (get_valid_credentials db).length)
            defaultCredential).sid,
         ((get_valid_credentials db).getD
            (sid_index u.current_sid_index (get_valid_credentials db).length)
            defaultCredential).auth_token),
       if (get_valid_credentials db).length ≤ u.current_sid_index then
         save_user db { u with current_sid_index := 0 }
       else db) := by
  simp only [get_next_sid, hK, Bool.false_eq_true, if_false]

theorem selected_cred_mem (db : DB) (u : User)
    (hK : get_valid_credentials db ≠ []) :
    (get_valid_credentials db).getD
        (sid_index u.current_sid_index (get_valid_credentials db).length)
        defaultCredential ∈ get_valid_credentials db := by
  have hlt : sid_index u.current_sid_index (get_valid_credentials db).length <
      (get_valid_credentials db).length :=
    sid_index_lt _ _ (List.length_pos.mpr hK)
  rw [List.getD_eq_getElem _ _ hlt]
  exact List.getElem_mem _

/-- One round of `buy_number_callback` under a found user, a nonempty
valid-credential set whose entries have nonempty sid/token, and an upstream
purchase that succeeds: the callback reports the purchase, appends exactly
one number document, advances the stored cursor to
`(sid_index cursor K + 1) % K`, and leaves the credential collection
untouched. -/
theorem buy_round_spec (db : DB) (purchase : String → Except String String)
    (now : Int) (user_id : Nat) (n s : String) (u : User)
    (hu : find_user db user_id = some u)
    (hK : get_valid_credentials db ≠ [])
    (hcred : ∀ c ∈ get_valid_credentials db,
      c.sid.isEmpty = false ∧ c.auth_token.isEmpty = false)
    (hp : purchase n = .ok s) :
    ∃ db',
      buy_number_callback db purchase now user_id n = (.purchased s, db') ∧
      find_user db' user_id =
        some { u with current_sid_index :=
          (sid_index u.current_sid_index (get_valid_credentials db).length + 1) %
            (get_valid_credentials db).length } ∧
      db'.credentials = db.credentials ∧
      db'.numbers = db.numbers ++ [⟨n, s, user_id, now⟩] := by
  have htid : u.telegram_id = user_id := find_user_some_tid db user_id u hu
  have hKpos : 0 < (get_valid_credentials db).length := List.length_pos.mpr hK
  have hKemp : (get_valid_credentials db).isEmpty = false := by
    cases hE : (get_valid_credentials db).isEmpty
    · rfl
    · exact absurd (List.isEmpty_iff.mp hE) hK
  obtain ⟨hsid, htok⟩ := hcred _ (selected_cred_mem db u hK)
  have hfalsy : cred_pair_falsy
      (((get_valid_credentials db).getD
          (sid_index u.current_sid_index (get_valid_credentials db).length)
          defaultCredential).sid,
       ((get_valid_credentials db).getD
          (sid_index u.current_sid_index (get_valid_credentials db).length)
          defaultCredential).auth_token) = false := by
    show (_ || _) = false
    rw [hsid, htok]
    rfl
  have h0 : ((get_valid_credentials db).length == 0) = false := by
    simp [Nat.pos_iff_ne_zero.mp hKpos]
  by_cases hreset : (get_valid_credentials db).length ≤ u.current_sid_index
  · have hfind1 : find_user
        (insert_number (save_user db { u with current_sid_index := 0 })
          ⟨n, s, user_id, now⟩) user_id = some { u with current_sid_index := 0 } := by
      rw [find_user_insert_number, ← htid]
      exact find_user_save_self db { u with current_sid_index := 0 }
    refine ⟨save_user
        (insert_number (save_user db { u with current_sid_index := 0 })
          ⟨n, s, user_id, now⟩)
        { u with current_sid_index :=
          (sid_index u.current_sid_index (get_valid_credentials db).length + 1) %
            (get_valid_credentials db).length }, ?_, ?_, rfl, rfl⟩
    · simp only [buy_number_callback, hu, get_next_sid_eq db u hKemp, hfalsy,
        Bool.false_eq_true, if_false, if_pos hreset, buy_number, hp, hfind1,
        valid_credentials_insert_number, valid_credentials_save_user, h0]
      simp [sid_index, hreset]
    · rw [← htid]
      exact find_user_save_self _ _
  · have hfind1 : find_user (insert_number db ⟨n, s, user_id, now⟩) user_id =
        some u := hu
    refine ⟨save_user (insert_number db ⟨n, s, user_id, now⟩)
        { u with current_sid_index :=
          (sid_index u.current_sid_index (get_valid_credentials db).length + 1) %
            (get_valid_credentials db).length }, ?_, ?_, rfl, rfl⟩
    · simp only [buy_number_callback, hu, get_next_sid_eq db u hKemp, hfalsy,
        Bool.false_eq_true, if_false, if_neg hreset, buy_number, hp, hfind1,
        valid_credentials_insert_number, h0]
      simp [sid_index, hreset]
    · rw [← htid]
      exact find_user_save_self _ _

theorem valid_credentials_congr (db db' : DB)
    (h : db'.credentials = db.credentials) :
    get_valid_credentials db' = get_valid_credentials db := by
  unfold get_valid_credentials
  rw [h]

/-- Cursor trace of a run of successful purchases: round `j` selects
credential index `(sid_index cursor K + j) % K`. -/
theorem purchase_run_sel (purchase : String → Except String String) (now : Int)
    (user_id : Nat) :
    ∀ (ns : List String) (db : DB) (u : User),
      find_user db user_id = some u →
      get_valid_credentials db ≠ [] →
      (∀ c ∈ get_valid_credentials db,
        c.sid.isEmpty = false ∧ c.auth_token.isEmpty = false) →
      (∀ m ∈ ns, ∃ s, purchase m = Except.ok s) →
      (purchase_run purchase now user_id db ns).2 =
        (List.range ns.length).map
          (fun j =>
            (sid_index u.current_sid_index (get_valid_credentials db).length + j) %
              (get_valid_credentials db).length) := by
  intro ns
  induction ns with
  | nil => intro db u _ _ _ _; rfl
  | cons m ns ih =>
      intro db u hu hK hcred hp
      have hKpos : 0 < (get_valid_credentials db).length := List.length_pos.mpr hK
      obtain ⟨s, hps⟩ := hp m (List.mem_cons_self _ _)
      obtain ⟨db', heq, hfind', hcreds', -⟩ :=
        buy_round_spec db purchase now user_id m s u hu hK hcred hps
      have hvc : get_valid_credentials db' = get_valid_credentials db :=
        valid_credentials_congr db db' hcreds'
      have hsel : round_selection db user_id =
          sid_index u.current_sid_index (get_valid_credentials db).length := by
        simp [round_selection, hu]
      have hcursor :
          (sid_index u.current_sid_index (get_valid_credentials db).length + 1) %
            (get_valid_credentials db).length < (get_valid_credentials db).length :=
        Nat.mod_lt _ hKpos
      have htail := ih db'
        { u with current_sid_index :=
          (sid_index u.current_sid_index (get_valid_credentials db).length + 1) %
            (get_valid_credentials db).length }
        hfind' (hvc ▸ hK) (hvc ▸ hcred) (fun m' hm' => hp m' (List.mem_cons_of_mem _ hm'))
      simp only [purchase_run, heq, hsel]
      rw [htail, hvc]
      have hfix : sid_index
          ((sid_index u.current_sid_index (get_valid_credentials db).length + 1) %
            (get_valid_credentials db).length)
          (get_valid_credentials db).length =
          (sid_index u.current_sid_index (get_valid_credentials db).length + 1) %
            (get_valid_credentials db).length :=
        sid_index_of_lt _ _ hcursor
      rw [hfix, List.length_cons, List.range_succ_eq_map, List.map_cons, List.map_map]
      congr 1
      · rw [Nat.add_zero, Nat.mod_eq_of_lt (sid_index_lt _ _ hKpos)]
      · refine List.map_congr_left (fun j _ => ?_)
        simp only [Function.comp]
        rw [Nat.mod_add_mod]
        congr 1
        omega

/-! ### Candidate-list lemmas -/

theorem canada_filter_loop_eq (used exclude : List String) (limit : Nat) :
    ∀ (l acc : List String), acc.length < limit →
      canada_filter_loop used exclude limit l acc =
        acc ++ (l.filter
          (fun n => decide (n ∉ used) && decide (n ∉ exclude))).take
            (limit - acc.length) := by
  intro l
  induction l with
  | nil => intro acc _; simp [canada_filter_loop]
  | cons n rest ih =>
      intro acc hacc
      by_cases hmem : n ∈ used ∨ n ∈ exclude
      · have hpn : ¬ ((decide (n ∉ used) && decide (n ∉ exclude)) = true) := by
          intro h
          simp only [Bool.and_eq_true, decide_eq_true_eq] at h
          exact (hmem.elim h.1 h.2)
        have hfe : List.filter (fun m => decide (m ∉ used) && decide (m ∉ exclude))
            (n :: rest) =
            List.filter (fun m => decide (m ∉ used) && decide (m ∉ exclude)) rest := by
          simp only [List.filter_cons]
          rw [if_neg hpn]
        simp only [canada_filter_loop, if_pos hmem]
        rw [ih acc hacc, hfe]
      · have hpn : (decide (n ∉ used) && decide (n ∉ exclude)) = true := by
          push_neg at hmem
          simp [hmem.1, hmem.2]
        have hfe : List.filter (fun m => decide (m ∉ used) && decide (m ∉ exclude))
            (n :: rest) =
            n :: List.filter (fun m => decide (m ∉ used) && decide (m ∉ exclude)) rest := by
          simp only [List.filter_cons]
          rw [if_pos hpn]
        simp only [canada_filter_loop, if_neg hmem]
        rw [hfe]
        by_cases hstop : limit ≤ (acc ++ [n]).length
        · rw [if_pos hstop]
          have hlim : limit - acc.length = 1 := by
            simp only [List.length_append, List.length_singleton] at hstop
            omega
          rw [hlim, List.take_succ_cons, List.take_zero]
        · rw [if_neg hstop, ih (acc ++ [n]) (by omega)]
          have hlim : limit - acc.length = (limit - (acc ++ [n]).length) + 1 := by
            simp only [List.length_append, List.length_singleton] at hstop ⊢
            omega
          rw [hlim, List.take_succ_cons, List.append_assoc, List.singleton_append]

/-! ### Claim C1 -/

/-- C1 counterexample: with `"+1555A"` already present in the `numbers`
collection (owned by subscriber 1), a purchase of `"+1555A"` by subscriber 2
is NOT rejected locally: the upstream call is made and succeeds, the
callback reports a successful purchase, and a second record for the same
identifier is inserted (the collection then holds two `"+1555A"` documents). -/
theorem buy_already_allocated_counterexample :
    (buy_number_callback
        (⟨[⟨2, none, true, none, none, 0⟩], [⟨1, "AC1", "T1", true, 0⟩],
          [⟨"+1555A", "PN1", 1, 0⟩]⟩ : DB)
        (fun _ => Except.ok "PN2") 0 2 "+1555A").1 = BuyOutcome.purchased "PN2" ∧
    ((buy_number_callback
        (⟨[⟨2, none, true, none, none, 0⟩], [⟨1, "AC1", "T1", true, 0⟩],
          [⟨"+1555A", "PN1", 1, 0⟩]⟩ : DB)
        (fun _ => Except.ok "PN2") 0 2 "+1555A").2).numbers.countP
      (fun d => d.number == "+1555A") = 2 := by
  decide

/-- C1 amended: the purchase path performs no local duplicate check at all.
For ANY database (in particular one whose `numbers` collection already holds
`n`), when the user exists, a nonempty valid-credential set is available and
the upstream purchase succeeds, `buy_number_callback` invokes the upstream
purchase, reports success, and appends a new local record for `n`;
duplicate prevention exists only at listing time and in the upstream's own
exclusivity. -/
theorem buy_no_local_duplicate_guard (db : DB)
    (purchase : String → Except String String) (now : Int) (user_id : Nat)
    (n s : String) (u : User)
    (hu : find_user db user_id = some u)
    (hK : get_valid_credentials db ≠ [])
    (hcred : ∀ c ∈ get_valid_credentials db,
      c.sid.isEmpty = false ∧ c.auth_token.isEmpty = false)
    (hp : purchase n = Except.ok s) :
    ∃ db',
      buy_number_callback db purchase now user_id n = (.purchased s, db') ∧
      db'.numbers = db.numbers ++ [⟨n, s, user_id, now⟩] ∧
      db'.numbers.countP (fun d => d.number == n) =
        db.numbers.countP (fun d => d.number == n) + 1 := by
  obtain ⟨db', h1, -, -, h4⟩ :=
    buy_round_spec db purchase now user_id n s u hu hK hcred hp
  refine ⟨db', h1, h4, ?_⟩
  rw [h4, List.countP_append]
  simp

/-- C1 amended witness: concrete instance with the number already allocated. -/
theorem buy_no_local_duplicate_guard_witness :
    (find_user
        (⟨[⟨2, none, true, none, none, 0⟩], [⟨1, "AC1", "T1", true, 0⟩],
          [⟨"+1555A", "PN1", 1, 0⟩]⟩ : DB) 2 =
      some ⟨2, none, true, none, none, 0⟩) ∧
    (∃ db',
      buy_number_callback
          (⟨[⟨2, none, true, none, none, 0⟩], [⟨1, "AC1", "T1", true, 0⟩],
            [⟨"+1555A", "PN1", 1, 0⟩]⟩ : DB)
          (fun _ => Except.ok "PN2") 0 2 "+1555A" = (.purchased "PN2", db') ∧
      db'.numbers = [⟨"+1555A", "PN1", 1, 0⟩] ++ [⟨"+1555A", "PN2", 2, 0⟩] ∧
      db'.numbers.countP (fun d => d.number == "+1555A") =
        [(⟨"+1555A", "PN1", 1, 0⟩ : NumberDoc)].countP
          (fun d => d.number == "+1555A") + 1) :=
  ⟨by decide,
   buy_no_local_duplicate_guard _ (fun _ => Except.ok "PN2") 0 2 "+1555A" "PN2"
     ⟨2, none, true, none, none, 0⟩ (by decide) (by decide) (by decide) rfl⟩

/-! ### Claim C2 -/

/-- C2 counterexample: with a found user and an EMPTY valid-credential set at
advance time, a purchase whose upstream call succeeds does NOT return
success: the `% 0` raises `ZeroDivisionError`, which the generic handler
converts into a failure result (while the cursor indeed stays unchanged). -/
theorem advance_empty_creds_counterexample :
    (buy_number (⟨[⟨2, none, true, none, none, 3⟩], [], []⟩ : DB)
        (fun _ => Except.ok "PN") 0 "+1555B" 2).1 = BuyResult.err zeroDivMsg ∧
    ¬ (buy_number (⟨[⟨2, none, true, none, none, 3⟩], [], []⟩ : DB)
        (fun _ => Except.ok "PN") 0 "+1555B" 2).1 = BuyResult.ok "PN" := by
  decide

/-- C2 amended: when the valid-credential set is empty at the moment the
cursor would be advanced after a successful upstream purchase, the cursor is
indeed left unchanged (the stored user record is untouched), but the
operation returns the caught `ZeroDivisionError` as a failure — not success
— even though the upstream purchase succeeded and the local record was
already inserted. -/
theorem advance_empty_creds_amended (db : DB)
    (purchase : String → Except String String) (now : Int) (n s : String)
    (user_id : Nat) (u : User)
    (hp : purchase n = Except.ok s)
    (hu : find_user db user_id = some u)
    (hK : get_valid_credentials db = []) :
    buy_number db purchase now n user_id =
      (.err zeroDivMsg, insert_number db ⟨n, s, user_id, now⟩) ∧
    find_user (buy_number db purchase now n user_id).2 user_id = some u := by
  have hu1 : find_user (insert_number db ⟨n, s, user_id, now⟩) user_id = some u := hu
  have h0 : ((get_valid_credentials (insert_number db ⟨n, s, user_id, now⟩)).length
      == 0) = true := by
    rw [valid_credentials_insert_number, hK]
    rfl
  have hmain : buy_number db purchase now n user_id =
      (.err zeroDivMsg, insert_number db ⟨n, s, user_id, now⟩) := by
    simp only [buy_number, hp, hu1, h0, if_true]
  exact ⟨hmain, by rw [hmain]; exact hu1⟩

/-- C2 amended witness. -/
theorem advance_empty_creds_amended_witness :
    (get_valid_credentials (⟨[⟨2, none, true, none, none, 3⟩], [], []⟩ : DB) = []) ∧
    (buy_number (⟨[⟨2, none, true, none, none, 3⟩], [], []⟩ : DB)
        (fun _ => Except.ok "PN") 0 "+1555B" 2 =
      (.err zeroDivMsg,
        insert_number (⟨[⟨2, none, true, none, none, 3⟩], [], []⟩ : DB)
          ⟨"+1555B", "PN", 2, 0⟩) ∧
    find_user (buy_number (⟨[⟨2, none, true, none, none, 3⟩], [], []⟩ : DB)
        (fun _ => Except.ok "PN") 0 "+1555B" 2).2 2 =
      some ⟨2, none, true, none, none, 3⟩) :=
  ⟨by decide,
   advance_empty_creds_amended _ (fun _ => Except.ok "PN") 0 "+1555B" "PN" 2
     ⟨2, none, true, none, none, 3⟩ rfl (by decide) (by decide)⟩

/-! ### Claim C3 -/

/-- C3 counterexample: a subscriber with `active = true` and
`expiry = now` (not strictly past) survives a sweep pass unchanged because
the sweeper's query uses strict `$lt`; right after the pass the record is
still active while no strictly-future expiry exists, so the claimed
activation-flag biconditional fails. -/
theorem activation_invariant_counterexample :
    find_user (check_subscriptions_pass 100 (fun _ => true)
        (⟨[⟨1, none, true, some "1 day", some 100, 0⟩], [], []⟩ : DB)).1 1 =
      some ⟨1, none, true, some "1 day", some 100, 0⟩ ∧
    ¬ activation_invariant 100 ⟨1, none, true, some "1 day", some 100, 0⟩ := by
  decide

/-- C3 amended: what the sweeper actually enforces is the strict-past form of
the invariant: after a sweep pass at time `now`, every subscriber that
matched the expiry query (`active` with expiry strictly before `now`) is
stored deactivated, and no stored record still matches the query.  The
biconditional "flag true iff expiry present and strictly in the future" is
not restored at the boundary `expiry = now`, nor is the flag ever raised for
inactive users with future expiry. -/
theorem sweep_enforces_strict_past_deactivation (now : Int) (deliver : Nat → Bool)
    (db : DB) (hnd : (db.users.map (fun v => v.telegram_id)).Nodup) :
    (∀ u ∈ db.users, is_expired_query now u = true →
      find_user (check_subscriptions_pass now deliver db).1 u.telegram_id =
        some { u with is_active := false }) ∧
    (∀ v ∈ (check_subscriptions_pass now deliver db).1.users,
      is_expired_query now v = false) := by
  have hsubnd : ((db.users.filter (is_expired_query now)).map
      (fun v => v.telegram_id)).Nodup :=
    ((List.filter_sublist db.users).map _).nodup hnd
  constructor
  · intro u hu hq
    exact sweep_fold_find_mem _ db u hsubnd (List.mem_filter.mpr ⟨hu, hq⟩)
  · intro v hv
    have husers : (check_subscriptions_pass now deliver db).1.users =
        db.users.map
          (fun u => if is_expired_query now u then { u with is_active := false }
            else u) := by
      show ((db.users.filter (is_expired_query now)).foldl
          (fun acc u => save_user acc { u with is_active := false }) db).users = _
      rw [sweep_fold_db]
      exact sweep_users_eq_map now db.users hnd
    rw [husers] at hv
    obtain ⟨u, -, hvu⟩ := List.mem_map.mp hv
    by_cases hP : is_expired_query now u = true
    · rw [← hvu, if_pos hP]
      simp [is_expired_query]
    · rw [← hvu, if_neg hP]
      exact Bool.not_eq_true _ ▸ (by simpa using hP)

/-- C3 amended witness: one expired and one boundary subscriber. -/
theorem sweep_enforces_strict_past_deactivation_witness :
    ((([⟨1, none, true, some "1 day", some 50, 0⟩,
        ⟨2, none, true, some "1 day", some 100, 0⟩] : List User).map
      (fun v => v.telegram_id)).Nodup) ∧
    ((∀ u ∈ ([⟨1, none, true, some "1 day", some 50, 0⟩,
          ⟨2, none, true, some "1 day", some 100, 0⟩] : List User),
        is_expired_query 100 u = true →
        find_user (check_subscriptions_pass 100 (fun _ => false)
            (⟨[⟨1, none, true, some "1 day", some 50, 0⟩,
               ⟨2, none, true, some "1 day", some 100, 0⟩], [], []⟩ : DB)).1
            u.telegram_id =
          some { u with is_active := false }) ∧
      (∀ v ∈ (check_subscriptions_pass 100 (fun _ => false)
          (⟨[⟨1, none, true, some "1 day", some 50, 0⟩,
             ⟨2, none, true, some "1 day", some 100, 0⟩], [], []⟩ : DB)).1.users,
        is_expired_query 100 v = false)) :=
  ⟨by decide,
   sweep_enforces_strict_past_deactivation 100 (fun _ => false)
     (⟨[⟨1, none, true, some "1 day", some 50, 0⟩,
        ⟨2, none, true, some "1 day", some 100, 0⟩], [], []⟩ : DB) (by decide)⟩

/-! ### Claim C7 -/

/-- C7: every subscriber that is active with expiry strictly in the past at
the start of a sweep pass is deactivated and persisted with exactly one
notification obligation emitted for it; the persisted outcome is
independent of notification-delivery results (a delivery failure cannot
abort the pass); and a pass interrupted after its first `k` updates leaves
those `k` subscribers durably deactivated. -/
theorem sweep_pass_spec (now : Int) (deliver : Nat → Bool) (db : DB)
    (hnd : (db.users.map (fun v => v.telegram_id)).Nodup) :
    (∀ u ∈ db.users, is_expired_query now u = true →
      find_user (check_subscriptions_pass now deliver db).1 u.telegram_id =
        some { u with is_active := false } ∧
      (check_subscriptions_pass now deliver db).2.countP
        (fun p => p.1 == u.telegram_id) = 1) ∧
    (∀ d1 d2 : Nat → Bool,
      (check_subscriptions_pass now d1 db).1 = (check_subscriptions_pass now d2 db).1) ∧
    (∀ k, ∀ u ∈ (db.users.filter (is_expired_query now)).take k,
      find_user (check_subscriptions_interrupted now db k) u.telegram_id =
        some { u with is_active := false }) := by
  have hsubnd : ((db.users.filter (is_expired_query now)).map
      (fun v => v.telegram_id)).Nodup :=
    ((List.filter_sublist db.users).map _).nodup hnd
  refine ⟨?_, fun d1 d2 => rfl, ?_⟩
  · intro u hu hq
    have hmem : u ∈ db.users.filter (is_expired_query now) :=
      List.mem_filter.mpr ⟨hu, hq⟩
    refine ⟨sweep_fold_find_mem _ db u hsubnd hmem, ?_⟩
    show ((db.users.filter (is_expired_query now)).map
        (fun v => (v.telegram_id, deliver v.telegram_id))).countP
      (fun p => p.1 == u.telegram_id) = 1
    rw [List.countP_map]
    have hcount : (db.users.filter (is_expired_query now)).countP
        (fun v => v.telegram_id == u.telegram_id) = 1 := by
      have h1 : u.telegram_id ∈ (db.users.filter (is_expired_query now)).map
          (fun v => v.telegram_id) := List.mem_map_of_mem _ hmem
      have h2 := List.count_eq_one_of_mem hsubnd h1
      rw [List.count, List.countP_map] at h2
      exact h2
    exact hcount
  · intro k u hu
    have htake : ((db.users.filter (is_expired_query now)).take k).map
        (fun v => v.telegram_id) =
        ((db.users.filter (is_expired_query now)).map
          (fun v => v.telegram_id)).take k := List.map_take _ _ _
    have hndk : (((db.users.filter (is_expired_query now)).take k).map
        (fun v => v.telegram_id)).Nodup := by
      rw [htake]
      exact (List.take_sublist _ _).nodup hsubnd
    exact sweep_fold_find_mem _ db u hndk hu

/-- C7 witness: the spec scenario — subscriber with `expiry = now - 1`,
`active = true` is deactivated with exactly one obligation, a failing
delivery does not change the persisted state, and the 1-prefix partial pass
deactivates it durably. -/
theorem sweep_pass_spec_witness :
    ((([⟨7, none, true, some "1 day", some 99, 0⟩] : List User).map
      (fun v => v.telegram_id)).Nodup) ∧
    ((∀ u ∈ ([⟨7, none, true, some "1 day", some 99, 0⟩] : List User),
        is_expired_query 100 u = true →
        find_user (check_subscriptions_pass 100 (fun _ => false)
            (⟨[⟨7, none, true, some "1 day", some 99, 0⟩], [], []⟩ : DB)).1
            u.telegram_id =
          some { u with is_active := false } ∧
        (check_subscriptions_pass 100 (fun _ => false)
            (⟨[⟨7, none, true, some "1 day", some 99, 0⟩], [], []⟩ : DB)).2.countP
          (fun p => p.1 == u.telegram_id) = 1) ∧
      (∀ d1 d2 : Nat → Bool,
        (check_subscriptions_pass 100 d1
            (⟨[⟨7, none, true, some "1 day", some 99, 0⟩], [], []⟩ : DB)).1 =
          (check_subscriptions_pass 100 d2
            (⟨[⟨7, none, true, some "1 day", some 99, 0⟩], [], []⟩ : DB)).1) ∧
      (∀ k, ∀ u ∈ (([⟨7, none, true, some "1 day", some 99, 0⟩] :
            List User).filter (is_expired_query 100)).take k,
        find_user (check_subscriptions_interrupted 100
            (⟨[⟨7, none, true, some "1 day", some 99, 0⟩], [], []⟩ : DB) k)
            u.telegram_id =
          some { u with is_active := false })) :=
  ⟨by decide,
   sweep_pass_spec 100 (fun _ => false)
     (⟨[⟨7, none, true, some "1 day", some 99, 0⟩], [], []⟩ : DB) (by decide)⟩

/-! ### Claim C4 -/

/-- C4: with a fixed valid-credential set of size `K ≥ 1`, a run of `K`
consecutive successful purchases selects credential indices
`(start + j) % K` for `j = 0, …, K-1` — each credential exactly once, in
set order, before any repeat — all selected indices are in range, and a
mere lookup (`get_next_sid`) with an in-range cursor performs no write at
all: the cursor is advanced only by the successful purchase. -/
theorem rotation_round_robin (db : DB) (purchase : String → Except String String)
    (now : Int) (user_id : Nat) (ns : List String) (u : User)
    (hu : find_user db user_id = some u)
    (hK : get_valid_credentials db ≠ [])
    (hcred : ∀ c ∈ get_valid_credentials db,
      c.sid.isEmpty = false ∧ c.auth_token.isEmpty = false)
    (hns : ns.length = (get_valid_credentials db).length)
    (hp : ∀ m ∈ ns, ∃ s, purchase m = Except.ok s) :
    ((purchase_run purchase now user_id db ns).2 =
        (List.range (get_valid_credentials db).length).map
          (fun j =>
            (sid_index u.current_sid_index (get_valid_credentials db).length + j) %
              (get_valid_credentials db).length) ∧
      (purchase_run purchase now user_id db ns).2.Nodup ∧
      ∀ i ∈ (purchase_run purchase now user_id db ns).2,
        i < (get_valid_credentials db).length) ∧
    (u.current_sid_index < (get_valid_credentials db).length →
      (get_next_sid db u).2 = db) := by
  have hKpos : 0 < (get_valid_credentials db).length := List.length_pos.mpr hK
  have htrace := purchase_run_sel purchase now user_id ns db u hu hK hcred hp
  rw [hns] at htrace
  constructor
  · refine ⟨htrace, ?_, ?_⟩
    · rw [htrace]
      refine List.Nodup.map_on ?_ (List.nodup_range _)
      intro x hx y hy hxy
      have hx' := List.mem_range.mp hx
      have hy' := List.mem_range.mp hy
      have hmod : x ≡ y [MOD (get_valid_credentials db).length] :=
        Nat.ModEq.add_left_cancel'
          (sid_index u.current_sid_index (get_valid_credentials db).length) hxy
      calc x = x % (get_valid_credentials db).length := (Nat.mod_eq_of_lt hx').symm
        _ = y % (get_valid_credentials db).length := hmod
        _ = y := Nat.mod_eq_of_lt hy'
    · rw [htrace]
      intro i hi
      obtain ⟨j, -, hj⟩ := List.mem_map.mp hi
      rw [← hj]
      exact Nat.mod_lt _ hKpos
  · intro hcur
    have hKemp : (get_valid_credentials db).isEmpty = false := by
      cases hE : (get_valid_credentials db).isEmpty
      · rfl
      · exact absurd (List.isEmpty_iff.mp hE) hK
    rw [get_next_sid_eq db u hKemp]
    exact if_neg (by omega)

/-- C4 witness: two valid credentials, cursor 0; two successful purchases
select indices `[0, 1]`, and a lookup writes nothing. -/
theorem rotation_round_robin_witness :
    (find_user (⟨[⟨2, none, true, none, none, 0⟩],
        [⟨1, "AC1", "T1", true, 0⟩, ⟨1, "AC2", "T2", true, 0⟩], []⟩ : DB) 2 =
      some ⟨2, none, true, none, none, 0⟩) ∧
    (((purchase_run (fun _ => Except.ok "PN") 0 2
          (⟨[⟨2, none, true, none, none, 0⟩],
            [⟨1, "AC1", "T1", true, 0⟩, ⟨1, "AC2", "T2", true, 0⟩], []⟩ : DB)
          ["+1A", "+1B"]).2 =
        (List.range (get_valid_credentials
            (⟨[⟨2, none, true, none, none, 0⟩],
              [⟨1, "AC1", "T1", true, 0⟩, ⟨1, "AC2", "T2", true, 0⟩], []⟩ : DB)).length).map
          (fun j =>
            (sid_index (⟨2, none, true, none, none, 0⟩ : User).current_sid_index
                (get_valid_credentials
                  (⟨[⟨2, none, true, none, none, 0⟩],
                    [⟨1, "AC1", "T1", true, 0⟩, ⟨1, "AC2", "T2", true, 0⟩],
                    []⟩ : DB)).length + j) %
              (get_valid_credentials
                (⟨[⟨2, none, true, none, none, 0⟩],
                  [⟨1, "AC1", "T1", true, 0⟩, ⟨1, "AC2", "T2", true, 0⟩],
                  []⟩ : DB)).length) ∧
      (purchase_run (fun _ => Except.ok "PN") 0 2
          (⟨[⟨2, none, true, none, none, 0⟩],
            [⟨1, "AC1", "T1", true, 0⟩, ⟨1, "AC2", "T2", true, 0⟩], []⟩ : DB)
          ["+1A", "+1B"]).2.Nodup ∧
      ∀ i ∈ (purchase_run (fun _ => Except.ok "PN") 0 2
          (⟨[⟨2, none, true, none, none, 0⟩],
            [⟨1, "AC1", "T1", true, 0⟩, ⟨1, "AC2", "T2", true, 0⟩], []⟩ : DB)
          ["+1A", "+1B"]).2,
        i < (get_valid_credentials
            (⟨[⟨2, none, true, none, none, 0⟩],
              [⟨1, "AC1", "T1", true, 0⟩, ⟨1, "AC2", "T2", true, 0⟩],
              []⟩ : DB)).length) ∧
    ((⟨2, none, true, none, none, 0⟩ : User).current_sid_index <
        (get_valid_credentials
          (⟨[⟨2, none, true, none, none, 0⟩],
            [⟨1, "AC1", "T1", true, 0⟩, ⟨1, "AC2", "T2", true, 0⟩], []⟩ : DB)).length →
      (get_next_sid
          (⟨[⟨2, none, true, none, none, 0⟩],
            [⟨1, "AC1", "T1", true, 0⟩, ⟨1, "AC2", "T2", true, 0⟩], []⟩ : DB)
          ⟨2, none, true, none, none, 0⟩).2 =
        (⟨[⟨2, none, true, none, none, 0⟩],
          [⟨1, "AC1", "T1", true, 0⟩, ⟨1, "AC2", "T2", true, 0⟩], []⟩ : DB))) :=
  ⟨by decide,
   rotation_round_robin _ (fun _ => Except.ok "PN") 0 2 ["+1A", "+1B"]
     ⟨2, none, true, none, none, 0⟩ (by decide) (by decide) (by decide) (by decide)
     (fun m _ => ⟨"PN", rfl⟩)⟩

/-! ### Claim C5 -/

/-- C5 counterexample: the break test runs only *after* an append, so with
`desired_count = 0` one passing number is still returned — the result is not
the upstream sequence filtered and truncated to at most the desired count. -/
theorem candidate_list_limit_zero_counterexample :
    get_canada_numbers (⟨[], [], []⟩ : DB) ["+1555B"] 0 [] = ["+1555B"] ∧
    ¬ get_canada_numbers (⟨[], [], []⟩ : DB) ["+1555B"] 0 [] =
        spec_candidates [] [] ["+1555B"] 0 ∧
    ¬ (get_canada_numbers (⟨[], [], []⟩ : DB) ["+1555B"] 0 []).length ≤ 0 := by
  decide

/-- C5 amended: for every desired count of at least 1, the candidate list is
exactly the upstream sequence with globally-allocated and excluded numbers
dropped, in upstream order, truncated to the desired count (for
`desired_count = 0` the loop still returns the first passing number). -/
theorem candidate_list_filtered (db : DB) (available exclude : List String)
    (limit : Nat) (hl : 1 ≤ limit) :
    get_canada_numbers db available limit exclude =
      spec_candidates (db.numbers.map (fun d => d.number)) exclude available
        limit := by
  unfold get_canada_numbers spec_candidates
  rw [canada_filter_loop_eq _ _ _ available [] (by simpa using hl)]
  simp

/-- C5 amended witness: the spec's scenario — allocated `{"+1555A"}`,
upstream `["+1555A","+1555B","+1555C"]`, desired count 2 gives
`["+1555B","+1555C"]`. -/
theorem candidate_list_filtered_witness :
    1 ≤ 2 ∧
    get_canada_numbers (⟨[], [], [⟨"+1555A", "PN0", 1, 0⟩]⟩ : DB)
        ["+1555A", "+1555B", "+1555C"] 2 [] =
      spec_candidates
        ((⟨[], [], [⟨"+1555A", "PN0", 1, 0⟩]⟩ : DB).numbers.map (fun d => d.number))
        [] ["+1555A", "+1555B", "+1555C"] 2 ∧
    spec_candidates
        ((⟨[], [], [⟨"+1555A", "PN0", 1, 0⟩]⟩ : DB).numbers.map (fun d => d.number))
        [] ["+1555A", "+1555B", "+1555C"] 2 = ["+1555B", "+1555C"] :=
  ⟨by decide,
   candidate_list_filtered (⟨[], [], [⟨"+1555A", "PN0", 1, 0⟩]⟩ : DB)
     ["+1555A", "+1555B", "+1555C"] [] 2 (by decide),
   by decide⟩

/-! ### Claim C6 -/

/-- C6: release of an absent resource id fails with the literal not-found
outcome and mutates nothing; release of a present resource invokes upstream
release with the *stored* `twilio_sid` (the outcome depends on the release
oracle only through its value at that stored reference), the local record is
removed only when the upstream release succeeds, and on upstream failure the
collection is untouched. -/
theorem release_not_found_and_stored_ref (db : DB)
    (release : String → Except String Unit) (number : String) :
    (db.numbers.find? (fun d => d.number == number) = none →
      delete_number db release number =
        ((false, some "Number not found in database"), db)) ∧
    (∀ doc, db.numbers.find? (fun d => d.number == number) = some doc →
      (∀ e, release doc.twilio_sid = .error e →
        delete_number db release number = ((false, some e), db)) ∧
      (release doc.twilio_sid = .ok () →
        delete_number db release number =
          ((true, none),
           ⟨db.users, db.credentials, delete_first_number db.numbers number⟩)) ∧
      (∀ release' : String → Except String Unit,
        release' doc.twilio_sid = release doc.twilio_sid →
        delete_number db release' number = delete_number db release number)) := by
  constructor
  · intro h
    simp only [delete_number, h]
  · intro doc hdoc
    refine ⟨?_, ?_, ?_⟩
    · intro e he
      simp only [delete_number, hdoc, he]
    · intro hok
      simp only [delete_number, hdoc, hok]
    · intro release' hsame
      simp only [delete_number, hdoc, hsame]

/-- C6 witness: not-found on an empty table mutates nothing, and on a present
record the stored upstream reference decides removal. -/
theorem release_not_found_and_stored_ref_witness :
    ((⟨[], [], [⟨"+1555A", "PN1", 1, 0⟩]⟩ : DB).numbers.find?
        (fun d => d.number == "+1555A") = some ⟨"+1555A", "PN1", 1, 0⟩) ∧
    ((fun r => if r = "PN1" then (Except.ok () : Except String Unit)
        else Except.error "wrong ref") "PN1" = Except.ok ()) ∧
    delete_number (⟨[], [], [⟨"+1555A", "PN1", 1, 0⟩]⟩ : DB)
        (fun r => if r = "PN1" then (Except.ok () : Except String Unit)
          else Except.error "wrong ref") "+1555A" =
      ((true, none),
       ⟨[], [],
        delete_first_number [⟨"+1555A", "PN1", 1, 0⟩] "+1555A"⟩) :=
  ⟨by decide, rfl,
   ((release_not_found_and_stored_ref (⟨[], [], [⟨"+1555A", "PN1", 1, 0⟩]⟩ : DB)
       (fun r => if r = "PN1" then (Except.ok () : Except String Unit)
         else Except.error "wrong ref") "+1555A").2
     ⟨"+1555A", "PN1", 1, 0⟩ (by decide)).2.1 rfl⟩

/-! ### Claim C8 -/

/-- C8: submitting payment proof in `awaiting_payment` with no plan
selection in the session context fails the transition: the conversation
reverts to the start state, no approval request is forwarded to any admin,
and the ledger is untouched (no subscription granted). -/
theorem payment_without_selection_reverts (db : DB) :
    process_payment_screenshot db none =
      { new_state := BotState.start, forwards := [], db := db } := rfl

/-! ### Claim C9 -/

/-- C9: with a nonempty valid-credential set, the index used by
`get_next_sid` is strictly below the set size; when the stored cursor is out
of range it is reset to 0 and that reset is persisted to the ledger before
selection, so selection never indexes past the end. -/
theorem cursor_in_range_selection (db : DB) (u : User)
    (hK : get_valid_credentials db ≠ []) :
    sid_index u.current_sid_index (get_valid_credentials db).length <
      (get_valid_credentials db).length ∧
    (get_next_sid db u).1 =
      some
        (((get_valid_credentials db).getD
            (sid_index u.current_sid_index (get_valid_credentials db).length)
            defaultCredential).sid,
         ((get_valid_credentials db).getD
            (sid_index u.current_sid_index (get_valid_credentials db).length)
            defaultCredential).auth_token) ∧
    ((get_valid_credentials db).length ≤ u.current_sid_index →
      find_user (get_next_sid db u).2 u.telegram_id =
        some { u with current_sid_index := 0 }) := by
  have hKemp : (get_valid_credentials db).isEmpty = false := by
    cases hE : (get_valid_credentials db).isEmpty
    · rfl
    · exact absurd (List.isEmpty_iff.mp hE) hK
  refine ⟨sid_index_lt _ _ (List.length_pos.mpr hK), ?_, ?_⟩
  · rw [get_next_sid_eq db u hKemp]
  · intro hreset
    rw [get_next_sid_eq db u hKemp]
    show find_user (if (get_valid_credentials db).length ≤ u.current_sid_index then
        save_user db { u with current_sid_index := 0 } else db) u.telegram_id = _
    rw [if_pos hreset]
    exact find_user_save_self db _

/-- C9 witness: one valid credential, stored cursor 5: the selection index is
0 and the reset is persisted. -/
theorem cursor_in_range_selection_witness :
    (get_valid_credentials
        (⟨[⟨2, none, true, none, none, 5⟩], [⟨1, "AC", "T", true, 0⟩], []⟩ : DB) ≠ []) ∧
    (sid_index (⟨2, none, true, none, none, 5⟩ : User).current_sid_index
        (get_valid_credentials
          (⟨[⟨2, none, true, none, none, 5⟩], [⟨1, "AC", "T", true, 0⟩],
            []⟩ : DB)).length <
      (get_valid_credentials
        (⟨[⟨2, none, true, none, none, 5⟩], [⟨1, "AC", "T", true, 0⟩],
          []⟩ : DB)).length ∧
    (get_next_sid (⟨[⟨2, none, true, none, none, 5⟩], [⟨1, "AC", "T", true, 0⟩],
        []⟩ : DB) ⟨2, none, true, none, none, 5⟩).1 =
      some
        (((get_valid_credentials
            (⟨[⟨2, none, true, none, none, 5⟩], [⟨1, "AC", "T", true, 0⟩],
              []⟩ : DB)).getD
            (sid_index (⟨2, none, true, none, none, 5⟩ : User).current_sid_index
              (get_valid_credentials
                (⟨[⟨2, none, true, none, none, 5⟩], [⟨1, "AC", "T", true, 0⟩],
                  []⟩ : DB)).length)
            defaultCredential).sid,
         ((get_valid_credentials
            (⟨[⟨2, none, true, none, none, 5⟩], [⟨1, "AC", "T", true, 0⟩],
              []⟩ : DB)).getD
            (sid_index (⟨2, none, true, none, none, 5⟩ : User).current_sid_index
              (get_valid_credentials
                (⟨[⟨2, none, true, none, none, 5⟩], [⟨1, "AC", "T", true, 0⟩],
                  []⟩ : DB)).length)
            defaultCredential).auth_token) ∧
    ((get_valid_credentials
        (⟨[⟨2, none, true, none, none, 5⟩], [⟨1, "AC", "T", true, 0⟩],
          []⟩ : DB)).length ≤
        (⟨2, none, true, none, none, 5⟩ : User).current_sid_index →
      find_user (get_next_sid
          (⟨[⟨2, none, true, none, none, 5⟩], [⟨1, "AC", "T", true, 0⟩],
            []⟩ : DB) ⟨2, none, true, none, none, 5⟩).2
          (⟨2, none, true, none, none, 5⟩ : User).telegram_id =
        some { (⟨2, none, true, none, none, 5⟩ : User) with
                current_sid_index := 0 })) :=
  ⟨by decide,
   cursor_in_range_selection
     (⟨[⟨2, none, true, none, none, 5⟩], [⟨1, "AC", "T", true, 0⟩], []⟩ : DB)
     ⟨2, none, true, none, none, 5⟩ (by decide)⟩

/-! ### Claim C10 -/

theorem numbers_get_next_sid (db : DB) (u : User) :
    ((get_next_sid db u).2).numbers = db.numbers := by
  unfold get_next_sid
  dsimp only
  split
  · rfl
  · split
    · exact numbers_save_user _ _
    · rfl

/-- C10: the OTP read path checks only that a local record for the number
exists — never its owner — so a non-owning, non-admin subscriber with an
active session reads the latest SMS of another subscriber's number; the
delete path, in the same situation, rejects with a permission error. -/
theorem otp_read_skips_ownership (db : DB) (latest : String → List String)
    (release : String → Except String Unit) (user_id : Nat) (number : String)
    (doc : NumberDoc) (u : User)
    (hdoc : db.numbers.find? (fun d => d.number == number) = some doc)
    (howner : doc.user_id ≠ user_id)
    (hadmin : is_admin user_id = false)
    (hu : find_user db user_id = some u)
    (hK : get_valid_credentials db ≠ [])
    (hcred : ∀ c ∈ get_valid_credentials db,
      c.sid.isEmpty = false ∧ c.auth_token.isEmpty = false) :
    (check_otp_callback db latest user_id number).1 =
      OtpOutcome.smsShown (check_sms (latest number)) ∧
    (delete_number_callback db release user_id number).1 =
      DeleteOutcome.noPermission := by
  have hKemp : (get_valid_credentials db).isEmpty = false := by
    cases hE : (get_valid_credentials db).isEmpty
    · rfl
    · exact absurd (List.isEmpty_iff.mp hE) hK
  obtain ⟨hsid, htok⟩ := hcred _ (selected_cred_mem db u hK)
  have hfalsy : cred_pair_falsy
      (((get_valid_credentials db).getD
          (sid_index u.current_sid_index (get_valid_credentials db).length)
          defaultCredential).sid,
       ((get_valid_credentials db).getD
          (sid_index u.current_sid_index (get_valid_credentials db).length)
          defaultCredential).auth_token) = false := by
    show (_ || _) = false
    rw [hsid, htok]
    rfl
  constructor
  · by_cases hreset : (get_valid_credentials db).length ≤ u.current_sid_index
    · have hdoc' : (save_user db { u with current_sid_index := 0 }).numbers.find?
          (fun d => d.number == number) = some doc := hdoc
      simp only [check_otp_callback, hu, get_next_sid_eq db u hKemp,
        if_pos hreset, hfalsy, Bool.false_eq_true, if_false, hdoc']
    · simp only [check_otp_callback, hu, get_next_sid_eq db u hKemp,
        if_neg hreset, hfalsy, Bool.false_eq_true, if_false, hdoc]
  · have hcond : (doc.user_id != user_id && !(is_admin user_id)) = true := by
      simp [bne_iff_ne, howner, hadmin]
    simp only [delete_number_callback, hdoc, hcond, if_true]

/-- C10 witness: subscriber 2 (not an admin, not the owner) reads the SMS of
subscriber 1's number, while their delete attempt is refused. -/
theorem otp_read_skips_ownership_witness :
    ((⟨[⟨2, none, true, none, none, 0⟩], [⟨1, "AC", "T", true, 0⟩],
        [⟨"+1555A", "PN1", 1, 0⟩]⟩ : DB).numbers.find?
      (fun d => d.number == "+1555A") = some ⟨"+1555A", "PN1", 1, 0⟩) ∧
    ((⟨"+1555A", "PN1", 1, 0⟩ : NumberDoc).user_id ≠ 2) ∧
    ((check_otp_callback
        (⟨[⟨2, none, true, none, none, 0⟩], [⟨1, "AC", "T", true, 0⟩],
          [⟨"+1555A", "PN1", 1, 0⟩]⟩ : DB)
        (fun _ => ["code 123456"]) 2 "+1555A").1 =
      OtpOutcome.smsShown (check_sms ((fun _ => ["code 123456"]) "+1555A")) ∧
    (delete_number_callback
        (⟨[⟨2, none, true, none, none, 0⟩], [⟨1, "AC", "T", true, 0⟩],
          [⟨"+1555A", "PN1", 1, 0⟩]⟩ : DB)
        (fun _ => Except.ok ()) 2 "+1555A").1 = DeleteOutcome.noPermission) :=
  ⟨by decide, by decide,
   otp_read_skips_ownership
     (⟨[⟨2, none, true, none, none, 0⟩], [⟨1, "AC", "T", true, 0⟩],
       [⟨"+1555A", "PN1", 1, 0⟩]⟩ : DB)
     (fun _ => ["code 123456"]) (fun _ => Except.ok ()) 2 "+1555A"
     ⟨"+1555A", "PN1", 1, 0⟩ ⟨2, none, true, none, none, 0⟩
     (by decide) (by decide) (by decide) (by decide) (by decide) (by decide)⟩

end Numberbot
